import Mathlib

/-!
Shallow embedding of `pytorch3d/renderer/mesh/renderer.py` (classes
`MeshRenderer` and `MeshRendererWithFragments`) together with a model of the
face-attribute interpolation core that the renderer invokes.

The two renderer classes are embedded faithfully: each owns a rasterizer and a
shader collaborator; method bodies are translated statement by statement, with
Python's implicit mutable `self` made explicit by returning the (unchanged)
object state alongside the method's return value.  Collaborators are abstract
types together with explicitly passed capability functions (`__call__` and
`to`), mirroring the duck-typed objects of the source.

`interpolate_face_attributes` lives in `pytorch3d.ops`, outside the sources at
hand, so it is modelled from the specification of the FaceAttributeInterpolator
(weighted combination of the three vertex attribute values; sentinel "no face"
slots give the zero vector; barycentric clipping policy; loud failures for
out-of-range face indices and for out-of-range weights when the clip flag was
never set).  Attribute values are `D`-dimensional rational vectors.
-/

set_option linter.unusedVariables false

/-- A fixed-arity attribute value (e.g. a 2-D UV coordinate): a `D`-dimensional
rational vector. -/
abbrev Attr (D : Nat) : Type := Fin D → ℚ

/-- The zero attribute vector, the fill value used for "no face" pixel slots. -/
def zeroAttr (D : Nat) : Attr D := fun _ => 0

/-- A triple of barycentric weights for one pixel slot. -/
abbrev Bary : Type := ℚ × ℚ × ℚ

/-- Modelled from the spec: the error taxonomy of the interpolation core
(§7): a `configurationError` when out-of-range barycentric weights are met
while the clip flag was never explicitly set, and an `indexError` when a
face id falls outside the packed per-face attribute sequence. -/
inductive InterpError : Type where
  | configurationError : InterpError
  | indexError : InterpError
deriving DecidableEq, Repr

/-- Clamp a rational into the interval `[0, 1]`. -/
def clamp01 (x : ℚ) : ℚ := max 0 (min 1 x)

/-- Modelled from the spec: the clip-and-renormalize step on a barycentric
triple — each weight is clamped into `[0, 1]` and the triple is then
renormalized to sum to 1 (`pytorch3d`'s barycentric-clipping helper is not
among the sources at hand). -/
def clipBary (w : Bary) : Bary :=
  (clamp01 w.1 / (clamp01 w.1 + clamp01 w.2.1 + clamp01 w.2.2),
   clamp01 w.2.1 / (clamp01 w.1 + clamp01 w.2.1 + clamp01 w.2.2),
   clamp01 w.2.2 / (clamp01 w.1 + clamp01 w.2.1 + clamp01 w.2.2))

/-- The weighted combination `w0*A0 + w1*A1 + w2*A2` of the three vertex
attribute values of a face. -/
def combine {D : Nat} (w : Bary) (a : Fin 3 → Attr D) : Attr D :=
  fun d => w.1 * a 0 d + w.2.1 * a 1 d + w.2.2 * a 2 d

/-- All three barycentric weights lie in `[0, 1]`. -/
def inRange01 (w : Bary) : Prop :=
  (0 ≤ w.1 ∧ w.1 ≤ 1) ∧ (0 ≤ w.2.1 ∧ w.2.1 ≤ 1) ∧ (0 ≤ w.2.2 ∧ w.2.2 ≤ 1)

instance (w : Bary) : Decidable (inRange01 w) := by
  unfold inRange01; infer_instance

/-- Membership in the convex hull of the three vertex attribute values of a
face: a combination with nonnegative weights summing to 1. -/
def inConvexHull {D : Nat} (v : Attr D) (a : Fin 3 → Attr D) : Prop :=
  ∃ u : Fin 3 → ℚ, (∀ j, 0 ≤ u j) ∧ u 0 + u 1 + u 2 = 1 ∧
    ∀ d, v d = u 0 * a 0 d + u 1 * a 1 d + u 2 * a 2 d

/-- Modelled from the spec: interpolation of one pixel slot (§4.2, §7).  The
slot's face id is `none` for the "no face" sentinel, which yields the zero
vector.  A valid face id outside the packed attribute sequence is an
`indexError`.  Otherwise the clip flag decides: explicitly enabled
(`some true`) clamps-and-renormalizes the weights before the weighted
combination; explicitly disabled (`some false`) uses the raw weights as-is;
never set (`none`) uses the raw weights when they are in range and fails with
a `configurationError` when a weight is out of `[0, 1]`. -/
def interpSlot {D : Nat} (clip : Option Bool) (attrs : List (Fin 3 → Attr D)) :
    Option Nat × Bary → Except InterpError (Attr D)
  | (Option.none, _) => Except.ok (zeroAttr D)
  | (Option.some i, w) =>
    match attrs.get? i with
    | Option.none => Except.error InterpError.indexError
    | Option.some a =>
      match clip with
      | Option.some true => Except.ok (combine (clipBary w) a)
      | Option.some false => Except.ok (combine w a)
      | Option.none =>
        if inRange01 w then Except.ok (combine w a)
        else Except.error InterpError.configurationError

/-- Modelled from the spec: elementwise interpolation over a list of pixel
slots, propagating the first failure. -/
def interpSlots {D : Nat} (clip : Option Bool) (attrs : List (Fin 3 → Attr D)) :
    List (Option Nat × Bary) → Except InterpError (List (Attr D))
  | [] => Except.ok []
  | s :: rest =>
    match interpSlot clip attrs s with
    | Except.error e => Except.error e
    | Except.ok v =>
      match interpSlots clip attrs rest with
      | Except.error e => Except.error e
      | Except.ok vs => Except.ok (v :: vs)

/-- Modelled from the spec: `pytorch3d.ops.interpolate_face_attributes`, the
FaceAttributeInterpolator.  Takes the per-slot face ids and barycentric
weights of a fragment buffer together with the packed per-face attribute
sequence, and the clip-barycentric-coordinates flag threaded from the
rasterization configuration. -/
def interpolate_face_attributes {D : Nat} (clip : Option Bool)
    (pix_to_face : List (Option Nat)) (bary_coords : List Bary)
    (face_attributes : List (Fin 3 → Attr D)) :
    Except InterpError (List (Attr D)) :=
  interpSlots clip face_attributes (pix_to_face.zip bary_coords)

/-- The FragmentBuffer: per pixel slot, the face id (`none` is the "no face"
sentinel), the barycentric weights, and the interpolated depth. -/
structure Fragments where
  pix_to_face : List (Option Nat)
  bary_coords : List Bary
  zbuf : List ℚ

/-- The textures of a mesh batch, as read by `get_view_to_texture_map`:
the padded texture-map images (contents opaque, type parameter `T`), the
per-mesh vertex UV coordinates, and the per-mesh per-face UV vertex index
triples. -/
structure Textures (T : Type) where
  maps_padded : T
  verts_uvs_list : List (List (Attr 2))
  faces_uvs_list : List (List (Fin 3 → Nat))

/-- A mesh batch: opaque geometry (type parameter `G`) plus textures. -/
structure MeshBatch (G T : Type) where
  geom : G
  textures : Textures T

/-- Python's advanced indexing `i[j]` for a per-mesh UV table `i` and a
per-face index-triple list `j`: select, for every face, the UV coordinates of
its three UV vertices. -/
def indexSelect (verts_uvs : List (Attr 2)) (faces_uvs : List (Fin 3 → Nat)) :
    List (Fin 3 → Attr 2) :=
  faces_uvs.map (fun f => fun k => verts_uvs.getD (f k) (zeroAttr 2))

/-- `MeshRenderer`: owns a rasterizer and a shader collaborator. -/
structure MeshRenderer (R S : Type) where
  rasterizer : R
  shader : S

/-- `MeshRenderer.to`: forwards the device change to the rasterizer and to the
shader, each with the same device. -/
def MeshRenderer.to {R S Dev : Type} (rastTo : R → Dev → R) (shadTo : S → Dev → S)
    (self : MeshRenderer R S) (device : Dev) : MeshRenderer R S :=
  { rasterizer := rastTo self.rasterizer device
    shader := shadTo self.shader device }

/-- `MeshRenderer.forward`: rasterize, then shade; returns the shader's images.
The second component is the method's out-state: the body assigns no field of
`self`, so it is `self` unchanged. -/
def MeshRenderer.forward {R S M K F I : Type} (rastCall : R → M → K → F)
    (shadCall : S → F → M → K → I) (self : MeshRenderer R S)
    (meshes_world : M) (kwargs : K) : I × MeshRenderer R S :=
  let fragments := rastCall self.rasterizer meshes_world kwargs
  let images := shadCall self.shader fragments meshes_world kwargs
  (images, self)

/-- `MeshRenderer.get_view_to_texture_map`: rasterize, fetch the textures,
build the packed per-face UV attribute by selecting each mesh's UV
coordinates at its own face UV indices and concatenating across meshes, then
interpolate.  `clip` is the clip-barycentric-coordinates flag of the
rasterization configuration, threaded to the interpolator as the spec
requires.  The second component is the method's out-state: the body assigns
no field of `self`, so it is `self` unchanged. -/
def MeshRenderer.get_view_to_texture_map {R S G T K : Type}
    (rastCall : R → MeshBatch G T → K → Fragments) (clip : Option Bool)
    (self : MeshRenderer R S) (meshes_world : MeshBatch G T) (kwargs : K) :
    Except InterpError (List (Attr 2)) × MeshRenderer R S :=
  let fragments := rastCall self.rasterizer meshes_world kwargs
  let tex := meshes_world.textures
  let tex_map := tex.maps_padded
  let packing_list := List.zipWith indexSelect tex.verts_uvs_list tex.faces_uvs_list
  let faces_verts_uvs := packing_list.flatten
  let pixel_uvs := interpolate_face_attributes clip fragments.pix_to_face
    fragments.bary_coords faces_verts_uvs
  (pixel_uvs, self)

/-- `MeshRendererWithFragments`: owns a rasterizer and a shader collaborator. -/
structure MeshRendererWithFragments (R S : Type) where
  rasterizer : R
  shader : S

/-- `MeshRendererWithFragments.to`: forwards the device change to the
rasterizer and to the shader, each with the same device. -/
def MeshRendererWithFragments.to {R S Dev : Type} (rastTo : R → Dev → R)
    (shadTo : S → Dev → S) (self : MeshRendererWithFragments R S) (device : Dev) :
    MeshRendererWithFragments R S :=
  { rasterizer := rastTo self.rasterizer device
    shader := shadTo self.shader device }

/-- `MeshRendererWithFragments.forward`: rasterize, then shade; returns the
images together with the intermediate fragments.  The second component is the
method's out-state: the body assigns no field of `self`, so it is `self`
unchanged. -/
def MeshRendererWithFragments.forward {R S M K F I : Type} (rastCall : R → M → K → F)
    (shadCall : S → F → M → K → I) (self : MeshRendererWithFragments R S)
    (meshes_world : M) (kwargs : K) : (I × F) × MeshRendererWithFragments R S :=
  let fragments := rastCall self.rasterizer meshes_world kwargs
  let images := shadCall self.shader fragments meshes_world kwargs
  ((images, fragments), self)

/-- C1: for every mesh batch and every options set, `render` (the `forward`
method of `MeshRenderer`) returns exactly the first component of
`renderWithFragments` (the `forward` method of `MeshRendererWithFragments`)
when both pipelines are built from the same rasterizer and shader: both invoke
the rasterizer then the shader in sequence on the same mesh batch, return the
shader's output unchanged, and the fragments component is the rasterizer's
output. -/
theorem render_eq_fst_renderWithFragments {R S M K F I : Type}
    (rastCall : R → M → K → F) (shadCall : S → F → M → K → I)
    (r : R) (s : S) (m : M) (k : K) :
    (MeshRenderer.forward rastCall shadCall ⟨r, s⟩ m k).1 =
      ((MeshRendererWithFragments.forward rastCall shadCall ⟨r, s⟩ m k).1).1 ∧
    (MeshRenderer.forward rastCall shadCall ⟨r, s⟩ m k).1 =
      shadCall s (rastCall r m k) m k ∧
    ((MeshRendererWithFragments.forward rastCall shadCall ⟨r, s⟩ m k).1).2 =
      rastCall r m k := by
  exact ⟨rfl, rfl, rfl⟩

/-- C8: for every compute target, `to` on either pipeline class invokes the
retarget operation of both owned collaborators with that same target, storing
the results in the corresponding fields. -/
theorem to_forwards_to_both_collaborators {R S Dev : Type}
    (rastTo : R → Dev → R) (shadTo : S → Dev → S)
    (self : MeshRenderer R S) (selfF : MeshRendererWithFragments R S) (d : Dev) :
    (MeshRenderer.to rastTo shadTo self d).rasterizer = rastTo self.rasterizer d ∧
    (MeshRenderer.to rastTo shadTo self d).shader = shadTo self.shader d ∧
    (MeshRendererWithFragments.to rastTo shadTo selfF d).rasterizer =
      rastTo selfF.rasterizer d ∧
    (MeshRendererWithFragments.to rastTo shadTo selfF d).shader =
      shadTo selfF.shader d := by
  exact ⟨rfl, rfl, rfl, rfl⟩

/-- C9: the pipeline is stateless across calls: `forward` on both classes and
`get_view_to_texture_map` leave the pipeline's own state (its two collaborator
fields) exactly as it was before the call, for every input. -/
theorem pipeline_stateless {R S M K F I G T : Type}
    (rastCall : R → M → K → F) (shadCall : S → F → M → K → I)
    (rastCallT : R → MeshBatch G T → K → Fragments) (clip : Option Bool)
    (self : MeshRenderer R S) (selfF : MeshRendererWithFragments R S)
    (m : M) (mb : MeshBatch G T) (k : K) :
    (MeshRenderer.forward rastCall shadCall self m k).2 = self ∧
    (MeshRenderer.get_view_to_texture_map rastCallT clip self mb k).2 = self ∧
    (MeshRendererWithFragments.forward rastCall shadCall selfF m k).2 = selfF := by
  exact ⟨rfl, rfl, rfl⟩

/-- C5: a pixel slot whose face id is the sentinel "no face" value yields
exactly the zero vector as its interpolated attribute and does not raise an
error, for every clip flag, every packed attribute sequence and every weight
triple. -/
theorem interp_sentinel_zero {D : Nat} (clip : Option Bool)
    (attrs : List (Fin 3 → Attr D)) (w : Bary) :
    interpSlot clip attrs (Option.none, w) = Except.ok (zeroAttr D) := by
  rfl

lemma clamp01_nonneg (x : ℚ) : 0 ≤ clamp01 x := le_max_left 0 _

lemma clamp01_le_one (x : ℚ) : clamp01 x ≤ 1 :=
  max_le (by norm_num) (min_le_left 1 x)

lemma clamp01_of_mem (x : ℚ) (h0 : 0 ≤ x) (h1 : x ≤ 1) : clamp01 x = x := by
  rw [clamp01, min_eq_right h1, max_eq_right h0]

/-- C7: the clip-and-renormalize step on a barycentric weight triple is
idempotent: applying it twice yields the same triple as applying it once. -/
theorem clipBary_idempotent (w : Bary) : clipBary (clipBary w) = clipBary w := by
  obtain ⟨w0, w1, w2⟩ := w
  by_cases hs : clamp01 w0 + clamp01 w1 + clamp01 w2 = 0
  · have h1 : clipBary (w0, w1, w2) = (0, 0, 0) := by
      simp [clipBary, hs]
    rw [h1]
    simp [clipBary, clamp01]
  · have hs0 : 0 ≤ clamp01 w0 + clamp01 w1 + clamp01 w2 :=
      add_nonneg (add_nonneg (clamp01_nonneg w0) (clamp01_nonneg w1)) (clamp01_nonneg w2)
    have hpos : 0 < clamp01 w0 + clamp01 w1 + clamp01 w2 :=
      lt_of_le_of_ne hs0 (Ne.symm hs)
    have hb0 := clamp01_nonneg w0
    have hb1 := clamp01_nonneg w1
    have hb2 := clamp01_nonneg w2
    have q0 : 0 ≤ clamp01 w0 / (clamp01 w0 + clamp01 w1 + clamp01 w2) :=
      div_nonneg hb0 hs0
    have q1 : 0 ≤ clamp01 w1 / (clamp01 w0 + clamp01 w1 + clamp01 w2) :=
      div_nonneg hb1 hs0
    have q2 : 0 ≤ clamp01 w2 / (clamp01 w0 + clamp01 w1 + clamp01 w2) :=
      div_nonneg hb2 hs0
    have r0 : clamp01 w0 / (clamp01 w0 + clamp01 w1 + clamp01 w2) ≤ 1 := by
      rw [div_le_one hpos]; linarith
    have r1 : clamp01 w1 / (clamp01 w0 + clamp01 w1 + clamp01 w2) ≤ 1 := by
      rw [div_le_one hpos]; linarith
    have r2 : clamp01 w2 / (clamp01 w0 + clamp01 w1 + clamp01 w2) ≤ 1 := by
      rw [div_le_one hpos]; linarith
    have hsum : clamp01 w0 / (clamp01 w0 + clamp01 w1 + clamp01 w2) +
        clamp01 w1 / (clamp01 w0 + clamp01 w1 + clamp01 w2) +
        clamp01 w2 / (clamp01 w0 + clamp01 w1 + clamp01 w2) = 1 := by
      field_simp
    show clipBary (clipBary (w0, w1, w2)) = clipBary (w0, w1, w2)
    simp only [clipBary]
    rw [clamp01_of_mem _ q0 r0, clamp01_of_mem _ q1 r1, clamp01_of_mem _ q2 r2, hsum]
    simp

/-- C3: `get_view_to_texture_map` builds the packed per-face UV attribute by
selecting, for each mesh separately, that mesh's vertex UV coordinates at that
mesh's face UV indices and only then concatenating across meshes in mesh
order; for a batch where mesh 0 has 3 faces and mesh 1 has 5 faces, the packed
array has exactly 8 entries and entry 3 is mesh 1's face 0. -/
theorem get_view_packing {R S G T K : Type}
    (rastCall : R → MeshBatch G T → K → Fragments) (clip : Option Bool)
    (self : MeshRenderer R S) (g : G) (maps : T)
    (vu0 vu1 : List (Attr 2)) (fu0 fu1 : List (Fin 3 → Nat)) (k : K)
    (h0 : fu0.length = 3) (h1 : fu1.length = 5) :
    (MeshRenderer.get_view_to_texture_map rastCall clip self
        (MeshBatch.mk g (Textures.mk maps [vu0, vu1] [fu0, fu1])) k).1 =
      interpolate_face_attributes clip
        (rastCall self.rasterizer
          (MeshBatch.mk g (Textures.mk maps [vu0, vu1] [fu0, fu1])) k).pix_to_face
        (rastCall self.rasterizer
          (MeshBatch.mk g (Textures.mk maps [vu0, vu1] [fu0, fu1])) k).bary_coords
        (indexSelect vu0 fu0 ++ indexSelect vu1 fu1) ∧
    (indexSelect vu0 fu0 ++ indexSelect vu1 fu1).length = 8 ∧
    (indexSelect vu0 fu0 ++ indexSelect vu1 fu1).get? 3 =
      (indexSelect vu1 fu1).get? 0 := by
  refine ⟨?_, ?_, ?_⟩
  · simp [MeshRenderer.get_view_to_texture_map]
  · simp [indexSelect, h0, h1]
  · have hlen : (indexSelect vu0 fu0).length = 3 := by simp [indexSelect, h0]
    rw [List.get?_append_right (by omega), hlen]

/-- A concrete face UV index list with 3 faces, used to instantiate theorems. -/
def fuA : List (Fin 3 → Nat) := List.replicate 3 (fun _ => 0)

/-- A concrete face UV index list with 5 faces, used to instantiate theorems. -/
def fuB : List (Fin 3 → Nat) := List.replicate 5 (fun _ => 0)

/-- A concrete rasterizer call producing an empty fragment buffer, used to
instantiate theorems. -/
def rastCallW : Unit → MeshBatch Unit Unit → Unit → Fragments :=
  fun _ _ _ => Fragments.mk [] [] []

/-- Witness for C3 at a concrete batch of two meshes with 3 and 5 faces. -/
theorem get_view_packing_witness :
    (fuA.length = 3 ∧ fuB.length = 5) ∧
    ((MeshRenderer.get_view_to_texture_map rastCallW Option.none ⟨(), ()⟩
        (MeshBatch.mk () (Textures.mk () [[], []] [fuA, fuB])) ()).1 =
      interpolate_face_attributes Option.none
        (rastCallW () (MeshBatch.mk () (Textures.mk () [[], []] [fuA, fuB])) ()).pix_to_face
        (rastCallW () (MeshBatch.mk () (Textures.mk () [[], []] [fuA, fuB])) ()).bary_coords
        (indexSelect [] fuA ++ indexSelect [] fuB) ∧
    (indexSelect [] fuA ++ indexSelect [] fuB).length = 8 ∧
    (indexSelect [] fuA ++ indexSelect [] fuB).get? 3 =
      (indexSelect [] fuB).get? 0) :=
  ⟨⟨rfl, rfl⟩, get_view_packing rastCallW Option.none ⟨(), ()⟩ () () [] [] fuA fuB () rfl rfl⟩

lemma clamp01_pos_of_pos (x : ℚ) (h : 0 < x) : 0 < clamp01 x :=
  lt_of_lt_of_le (lt_min one_pos h) (le_max_right 0 (min 1 x))

lemma clampSum_pos (w : Bary) (hsum : w.1 + w.2.1 + w.2.2 = 1) :
    0 < clamp01 w.1 + clamp01 w.2.1 + clamp01 w.2.2 := by
  have hb0 := clamp01_nonneg w.1
  have hb1 := clamp01_nonneg w.2.1
  have hb2 := clamp01_nonneg w.2.2
  have hcases : 0 < w.1 ∨ 0 < w.2.1 ∨ 0 < w.2.2 := by
    by_contra hc
    push_neg at hc
    obtain ⟨h0, h1, h2⟩ := hc
    linarith
  rcases hcases with h | h | h
  · have := clamp01_pos_of_pos _ h
    linarith
  · have := clamp01_pos_of_pos _ h
    linarith
  · have := clamp01_pos_of_pos _ h
    linarith

/-- C2: for a pixel slot with a valid face id whose weights sum to 1 (the
fragment-buffer invariant), interpolation with the clip flag enabled first
clamps each weight into `[0, 1]` and renormalizes the triple before the
weighted combination, so the result lies within the convex hull of the face's
three vertex attribute values; with the flag disabled the raw weights are used
as-is. -/
theorem interp_clip_convex {D : Nat} (attrs : List (Fin 3 → Attr D))
    (a : Fin 3 → Attr D) (i : Nat) (w : Bary)
    (ha : attrs.get? i = Option.some a) (hsum : w.1 + w.2.1 + w.2.2 = 1) :
    interpSlot (Option.some true) attrs (Option.some i, w) =
      Except.ok (combine (clipBary w) a) ∧
    inConvexHull (combine (clipBary w) a) a ∧
    interpSlot (Option.some false) attrs (Option.some i, w) =
      Except.ok (combine w a) := by
  have ha2 : attrs[i]? = Option.some a := by
    rw [← List.get?_eq_getElem?]; exact ha
  refine ⟨by simp [interpSlot, ha2], ?_, by simp [interpSlot, ha2]⟩
  have hpos := clampSum_pos w hsum
  have hb0 := clamp01_nonneg w.1
  have hb1 := clamp01_nonneg w.2.1
  have hb2 := clamp01_nonneg w.2.2
  refine ⟨![clamp01 w.1 / (clamp01 w.1 + clamp01 w.2.1 + clamp01 w.2.2),
            clamp01 w.2.1 / (clamp01 w.1 + clamp01 w.2.1 + clamp01 w.2.2),
            clamp01 w.2.2 / (clamp01 w.1 + clamp01 w.2.1 + clamp01 w.2.2)],
         ?_, ?_, ?_⟩
  · intro j
    fin_cases j <;>
      simp only [Matrix.cons_val_zero, Matrix.cons_val_one, Matrix.head_cons,
        Matrix.cons_val_two, Matrix.tail_cons] <;>
      exact div_nonneg (by assumption) hpos.le
  · simp only [Matrix.cons_val_zero, Matrix.cons_val_one, Matrix.head_cons,
      Matrix.cons_val_two, Matrix.tail_cons]
    field_simp
  · intro d
    simp only [combine, clipBary, Matrix.cons_val_zero, Matrix.cons_val_one,
      Matrix.head_cons, Matrix.cons_val_two, Matrix.tail_cons]

/-- The spec's scenario triangle: UV vertex attributes (0,0), (1,0), (0,1). -/
def aW : Fin 3 → Attr 2 := ![![0, 0], ![1, 0], ![0, 1]]

/-- Witness for C2 at the spec's scenario weight triple (1.2, -0.3, 0.1). -/
theorem interp_clip_convex_witness :
    ([aW].get? 0 = Option.some aW ∧
      ((6 / 5 : ℚ), ((-3 / 10 : ℚ), (1 / 10 : ℚ))).1 +
        ((6 / 5 : ℚ), ((-3 / 10 : ℚ), (1 / 10 : ℚ))).2.1 +
        ((6 / 5 : ℚ), ((-3 / 10 : ℚ), (1 / 10 : ℚ))).2.2 = 1) ∧
    (interpSlot (Option.some true) [aW]
        (Option.some 0, ((6 / 5 : ℚ), ((-3 / 10 : ℚ), (1 / 10 : ℚ)))) =
      Except.ok (combine (clipBary ((6 / 5 : ℚ), ((-3 / 10 : ℚ), (1 / 10 : ℚ)))) aW) ∧
    inConvexHull (combine (clipBary ((6 / 5 : ℚ), ((-3 / 10 : ℚ), (1 / 10 : ℚ)))) aW) aW ∧
    interpSlot (Option.some false) [aW]
        (Option.some 0, ((6 / 5 : ℚ), ((-3 / 10 : ℚ), (1 / 10 : ℚ)))) =
      Except.ok (combine ((6 / 5 : ℚ), ((-3 / 10 : ℚ), (1 / 10 : ℚ))) aW)) :=
  ⟨⟨rfl, by norm_num⟩,
    interp_clip_convex [aW] aW 0 ((6 / 5 : ℚ), ((-3 / 10 : ℚ), (1 / 10 : ℚ)))
      rfl (by norm_num)⟩

lemma interpSlots_error_of_mem {D : Nat} (clip : Option Bool)
    (attrs : List (Fin 3 → Attr D)) (slots : List (Option Nat × Bary))
    (s : Option Nat × Bary) (e : InterpError) (hmem : s ∈ slots)
    (hs : interpSlot clip attrs s = Except.error e) :
    ∃ e2, interpSlots clip attrs slots = Except.error e2 := by
  induction slots with
  | nil => cases hmem
  | cons hd tl ih =>
    rcases List.mem_cons.mp hmem with h | h
    · exact ⟨e, by simp only [interpSlots, ← h, hs]⟩
    · cases hcall : interpSlot clip attrs hd with
      | error e3 => exact ⟨e3, by simp only [interpSlots, hcall]⟩
      | ok v =>
        obtain ⟨e2, h2⟩ := ih h
        exact ⟨e2, by simp only [interpSlots, hcall, h2]⟩

/-- C6: if a non-sentinel face id of some pixel slot is an index outside the
bounds of the packed face-attribute sequence, that slot's interpolation is an
index error (never a silent out-of-bounds read or a wrap-around), and the
whole interpolation fails loudly with an error. -/
theorem interp_index_out_of_bounds {D : Nat} (clip : Option Bool)
    (attrs : List (Fin 3 → Attr D)) (pix_to_face : List (Option Nat))
    (bary_coords : List Bary) (i : Nat) (w : Bary)
    (hmem : (Option.some i, w) ∈ pix_to_face.zip bary_coords)
    (hoob : attrs.length ≤ i) :
    interpSlot clip attrs (Option.some i, w) = Except.error InterpError.indexError ∧
    ∃ e, interpolate_face_attributes clip pix_to_face bary_coords attrs =
      Except.error e := by
  have hget : attrs[i]? = Option.none := by
    rw [← List.get?_eq_getElem?]
    exact List.get?_eq_none.mpr hoob
  have hslot : interpSlot clip attrs (Option.some i, w) =
      Except.error InterpError.indexError := by
    simp [interpSlot, hget]
  exact ⟨hslot, interpSlots_error_of_mem clip attrs _ _ _ hmem hslot⟩

/-- Witness for C6: a one-slot buffer whose face id 5 exceeds the bounds of an
empty attribute sequence. -/
theorem interp_index_out_of_bounds_witness :
    ((Option.some 5, ((1 : ℚ), ((0 : ℚ), (0 : ℚ)))) ∈
        [Option.some 5].zip [((1 : ℚ), ((0 : ℚ), (0 : ℚ)))] ∧
      ([] : List (Fin 3 → Attr 2)).length ≤ 5) ∧
    (interpSlot Option.none ([] : List (Fin 3 → Attr 2))
        (Option.some 5, ((1 : ℚ), ((0 : ℚ), (0 : ℚ)))) =
      Except.error InterpError.indexError ∧
    ∃ e, interpolate_face_attributes Option.none [Option.some 5]
        [((1 : ℚ), ((0 : ℚ), (0 : ℚ)))] ([] : List (Fin 3 → Attr 2)) =
      Except.error e) :=
  ⟨⟨List.mem_singleton.mpr rfl, by decide⟩,
    interp_index_out_of_bounds Option.none [] [Option.some 5]
      [((1 : ℚ), ((0 : ℚ), (0 : ℚ)))] 5 ((1 : ℚ), ((0 : ℚ), (0 : ℚ)))
      (List.mem_singleton.mpr rfl) (by decide)⟩

lemma interpSlot_none_flag_cases {D : Nat} (attrs : List (Fin 3 → Attr D))
    (s : Option Nat × Bary)
    (hb : ∀ i w, s = (Option.some i, w) → i < attrs.length) :
    (∃ v, interpSlot Option.none attrs s = Except.ok v) ∨
    interpSlot Option.none attrs s = Except.error InterpError.configurationError := by
  obtain ⟨oi, w⟩ := s
  cases oi with
  | none => exact Or.inl ⟨_, rfl⟩
  | some i =>
    have hi : i < attrs.length := hb i w rfl
    obtain ⟨a, hget⟩ : ∃ a, attrs[i]? = Option.some a := by
      rw [← List.get?_eq_getElem?, List.get?_eq_get hi]
      exact ⟨_, rfl⟩
    by_cases hw : inRange01 w
    · exact Or.inl ⟨combine w a, by simp [interpSlot, hget, hw]⟩
    · exact Or.inr (by simp [interpSlot, hget, hw])

lemma interpSlots_config_of_mem {D : Nat} (attrs : List (Fin 3 → Attr D))
    (slots : List (Option Nat × Bary))
    (hb : ∀ j v, (Option.some j, v) ∈ slots → j < attrs.length)
    (i : Nat) (w : Bary) (hmem : (Option.some i, w) ∈ slots)
    (hw : ¬ inRange01 w) :
    interpSlots Option.none attrs slots = Except.error InterpError.configurationError := by
  induction slots with
  | nil => cases hmem
  | cons hd tl ih =>
    have hbtl : ∀ j v, (Option.some j, v) ∈ tl → j < attrs.length :=
      fun j v h => hb j v (List.mem_cons_of_mem _ h)
    rcases List.mem_cons.mp hmem with h | h
    · have hi : i < attrs.length := hb i w hmem
      obtain ⟨a, hget⟩ : ∃ a, attrs[i]? = Option.some a := by
        rw [← List.get?_eq_getElem?, List.get?_eq_get hi]
        exact ⟨_, rfl⟩
      have hslot : interpSlot Option.none attrs (Option.some i, w) =
          Except.error InterpError.configurationError := by
        simp [interpSlot, hget, hw]
      simp only [interpSlots, ← h, hslot]
    · rcases interpSlot_none_flag_cases attrs hd
        (fun j v hv => hb j v (hv ▸ List.mem_cons_self hd tl)) with ⟨v, hok⟩ | herr
      · simp only [interpSlots, hok, ih hbtl h]
      · simp only [interpSlots, herr]

/-- C4: if some barycentric weight of a valid, in-bounds pixel slot lies
outside `[0, 1]` and the clip-barycentric-coordinates flag was not explicitly
set, interpolation fails loudly with a configuration error — both the slot's
own interpolation and the whole buffer's; it neither silently clips by default
nor silently passes the out-of-range weights through. -/
theorem interp_config_error_when_flag_unset {D : Nat}
    (attrs : List (Fin 3 → Attr D)) (pix_to_face : List (Option Nat))
    (bary_coords : List Bary) (i : Nat) (w : Bary)
    (hb : ∀ j v, (Option.some j, v) ∈ pix_to_face.zip bary_coords →
      j < attrs.length)
    (hmem : (Option.some i, w) ∈ pix_to_face.zip bary_coords)
    (hw : ¬ inRange01 w) :
    interpSlot Option.none attrs (Option.some i, w) =
      Except.error InterpError.configurationError ∧
    interpolate_face_attributes Option.none pix_to_face bary_coords attrs =
      Except.error InterpError.configurationError := by
  have hi : i < attrs.length := hb i w hmem
  obtain ⟨a, hget⟩ : ∃ a, attrs[i]? = Option.some a := by
    rw [← List.get?_eq_getElem?, List.get?_eq_get hi]
    exact ⟨_, rfl⟩
  refine ⟨by simp [interpSlot, hget, hw], ?_⟩
  unfold interpolate_face_attributes
  exact interpSlots_config_of_mem attrs _ hb i w hmem hw

/-- Witness for C4: a one-slot buffer with weights (2, -1, 0) and the clip
flag never set. -/
theorem interp_config_error_when_flag_unset_witness :
    ((∀ j v, (Option.some j, v) ∈ [Option.some 0].zip
        [((2 : ℚ), ((-1 : ℚ), (0 : ℚ)))] → j < [aW].length) ∧
      (Option.some 0, ((2 : ℚ), ((-1 : ℚ), (0 : ℚ)))) ∈
        [Option.some 0].zip [((2 : ℚ), ((-1 : ℚ), (0 : ℚ)))] ∧
      ¬ inRange01 ((2 : ℚ), ((-1 : ℚ), (0 : ℚ)))) ∧
    (interpSlot Option.none [aW] (Option.some 0, ((2 : ℚ), ((-1 : ℚ), (0 : ℚ)))) =
      Except.error InterpError.configurationError ∧
    interpolate_face_attributes Option.none [Option.some 0]
        [((2 : ℚ), ((-1 : ℚ), (0 : ℚ)))] [aW] =
      Except.error InterpError.configurationError) :=
  ⟨⟨by
      intro j v h
      simp only [List.zip_cons_cons, List.zip_nil_right, List.mem_singleton,
        Prod.mk.injEq, Option.some.injEq] at h
      simp [h.1],
    List.mem_singleton.mpr rfl, by decide⟩,
    interp_config_error_when_flag_unset [aW] [Option.some 0]
      [((2 : ℚ), ((-1 : ℚ), (0 : ℚ)))] 0 ((2 : ℚ), ((-1 : ℚ), (0 : ℚ)))
      (by
        intro j v h
        simp only [List.zip_cons_cons, List.zip_nil_right, List.mem_singleton,
          Prod.mk.injEq, Option.some.injEq] at h
        simp [h.1])
      (List.mem_singleton.mpr rfl) (by decide)⟩

/-- Modelled from the spec: the rasterizer collaborator maps geometry to
per-pixel fragment data, so its output does not depend on the contents of the
padded texture-map images. -/
def MapsOblivious {R G T K : Type} (rastCall : R → MeshBatch G T → K → Fragments) : Prop :=
  ∀ r g (mp1 mp2 : T) vu fu k,
    rastCall r (MeshBatch.mk g (Textures.mk mp1 vu fu)) k =
    rastCall r (MeshBatch.mk g (Textures.mk mp2 vu fu)) k

/-- C10: the per-pixel UV map returned by `get_view_to_texture_map` is
independent of the contents of the texture's padded texture-map images: two
mesh batches differing only in `maps_padded` produce identical outputs, since
the fetched padded map value is never used in the computation of the
result. -/
theorem get_view_independent_of_maps {R S G T K : Type}
    (rastCall : R → MeshBatch G T → K → Fragments) (clip : Option Bool)
    (self : MeshRenderer R S) (g : G) (mp1 mp2 : T)
    (vu : List (List (Attr 2))) (fu : List (List (Fin 3 → Nat))) (k : K)
    (hrast : MapsOblivious rastCall) :
    (MeshRenderer.get_view_to_texture_map rastCall clip self
        (MeshBatch.mk g (Textures.mk mp1 vu fu)) k).1 =
    (MeshRenderer.get_view_to_texture_map rastCall clip self
        (MeshBatch.mk g (Textures.mk mp2 vu fu)) k).1 := by
  unfold MeshRenderer.get_view_to_texture_map
  rw [hrast self.rasterizer g mp1 mp2 vu fu k]

/-- A concrete rasterizer over boolean texture maps producing an empty
fragment buffer, used to instantiate theorems. -/
def rastCallB : Unit → MeshBatch Unit Bool → Unit → Fragments :=
  fun _ _ _ => Fragments.mk [] [] []

/-- Witness for C10: two concrete batches that differ only in their padded
texture maps. -/
theorem get_view_independent_of_maps_witness :
    MapsOblivious rastCallB ∧
    (MeshRenderer.get_view_to_texture_map rastCallB Option.none ⟨(), ()⟩
        (MeshBatch.mk () (Textures.mk true [[]] [[]])) ()).1 =
    (MeshRenderer.get_view_to_texture_map rastCallB Option.none ⟨(), ()⟩
        (MeshBatch.mk () (Textures.mk false [[]] [[]])) ()).1 :=
  ⟨fun _ _ _ _ _ _ _ => rfl,
    get_view_independent_of_maps rastCallB Option.none ⟨(), ()⟩ () true false
      [[]] [[]] () (fun _ _ _ _ _ _ _ => rfl)⟩
